import Mathlib

/-!
# Verification of the quiz-backend Session & Answer Engine

Shallow embedding of the data-access layer of the repository (`db.py`), the
persistence schema (`db_setup.py`) and the relevant HTTP handlers
(`app.py`).  The PostgreSQL store is modelled as lists of rows with
explicit sequence counters for the `BIGSERIAL` primary keys; constraint
violations and other driver errors are modelled with `Except`.
Timestamps (`now()` in SQL) are passed in explicitly as natural numbers.
-/

/-! ## Rows (tables from `db_setup.py`) -/

/-- Row of table `users` (db_setup.py lines 51-58). -/
structure UserRow where
  id : Nat
  username : String
  email : String
  password_hash : String
  role : String
  created_at : Nat
  deriving Repr, DecidableEq

/-- Row of table `quiz_questions` (db_setup.py lines 72-80).
`points` is a nullable `INT`. -/
structure QuestionRow where
  id : Nat
  quiz_id : Nat
  question_type : String
  time_limit_seconds : Option Int
  points : Option Int
  sort_order : Option Int
  question_text : String
  deriving Repr, DecidableEq

/-- Row of table `question_answer_options` (db_setup.py lines 83-89). -/
structure AnswerOptionRow where
  id : Nat
  question_id : Nat
  option_text : String
  is_correct : Bool
  sort_order : Option Int
  deriving Repr, DecidableEq

/-- Row of table `quiz_sessions` (db_setup.py lines 92-101). -/
structure SessionRow where
  id : Nat
  quiz_id : Nat
  host_id : Nat
  join_code : String
  status : String
  started_at : Option Nat
  finished_at : Option Nat
  deriving Repr, DecidableEq

/-- Row of table `quiz_session_players` (db_setup.py lines 104-113).
`score INT NOT NULL default 0`. -/
structure SessionPlayerRow where
  id : Nat
  session_id : Nat
  user_id : Option Nat
  nickname : String
  joined_at : Nat
  score : Int
  deriving Repr, DecidableEq

/-- Row of table `quiz_session_answers` (db_setup.py lines 116-124). -/
structure SessionAnswerRow where
  id : Nat
  session_player_id : Nat
  answer_option_id : Nat
  answered_at : Option Nat
  is_correct : Option Bool
  points_awarded : Option Int
  question_id : Nat
  deriving Repr, DecidableEq

/-- The database state: one list of rows per table, plus the `BIGSERIAL`
sequence counter of each table that the embedded operations insert into. -/
structure Store where
  users : List UserRow
  questions : List QuestionRow
  answer_options : List AnswerOptionRow
  sessions : List SessionRow
  players : List SessionPlayerRow
  answers : List SessionAnswerRow
  users_seq : Nat
  sessions_seq : Nat
  players_seq : Nat
  answers_seq : Nat
  deriving Repr, DecidableEq

/-- The empty database, as produced by `create_tables` in db_setup.py. -/
def Store.empty : Store :=
  { users := [], questions := [], answer_options := [], sessions := [],
    players := [], answers := [],
    users_seq := 1, sessions_seq := 1, players_seq := 1, answers_seq := 1 }

/-- Errors raised by the store (psycopg2 exception classes relevant here). -/
inductive DBError where
  | uniqueViolation : String → DBError
  | checkViolation : String → DBError
  | foreignKeyViolation : String → DBError
  deriving Repr, DecidableEq

/-! ## Pydantic request models (`schemas.py`) -/

/-- Schema `UserCreate` (schemas.py lines 33-35): username, email, role, password. -/
structure UserCreate where
  username : String
  email : String
  role : String
  password : String
  deriving Repr, DecidableEq

/-- Schema `SessionCreate` (schemas.py lines 102-106): `status` is **not** a field. -/
structure SessionCreate where
  quiz_id : Nat
  host_id : Nat
  join_code : String
  deriving Repr, DecidableEq

/-- Schema `SessionPlayerCreate` (schemas.py lines 155-159). -/
structure SessionPlayerCreate where
  session_id : Nat
  nickname : String
  user_id : Option Nat
  deriving Repr, DecidableEq

/-- Schema `SessionAnswerCreate` (schemas.py lines 178-182). -/
structure SessionAnswerCreate where
  session_player_id : Nat
  question_id : Nat
  answer_option_id : Nat
  deriving Repr, DecidableEq

/-! ## HTTP responses (FastAPI surface of `app.py`) -/

/-- Outcome of an HTTP handler, reduced to what the claims need:
the status code and, on success, the created payload. -/
inductive HTTPResponse where
  | createdId : Nat → HTTPResponse
  | createdAnswer : SessionAnswerRow → HTTPResponse
  | clientError : Nat → String → HTTPResponse
  | serverError : String → HTTPResponse
  deriving Repr, DecidableEq

/-- The HTTP status code carried by a response.  `created*` handlers in
app.py declare `status_code=201`; an uncaught exception is a 500. -/
def HTTPResponse.statusCode : HTTPResponse → Nat
  | .createdId _ => 201
  | .createdAnswer _ => 201
  | .clientError c _ => c
  | .serverError _ => 500

/-! ## db.py: the data-access layer -/

/-- Function `db.create_user` (db.py lines 90-109): `password_hash = user.password`
(line 96, no hashing), then INSERT with the `UNIQUE` constraints of the
`users` table (`username`, `email`) enforced by the store. -/
def create_user (st : Store) (now : Nat) (u : UserCreate) :
    Except DBError (Nat × Store) :=
  let password_hash := u.password
  if st.users.any (fun x => x.username == u.username) then
    .error (.uniqueViolation ("users_username_key"))
  else if st.users.any (fun x => x.email == u.email) then
    .error (.uniqueViolation ("users_email_key"))
  else
    .ok (st.users_seq,
      { st with
        users := st.users ++
          [{ id := st.users_seq, username := u.username, email := u.email,
             password_hash := password_hash, role := u.role, created_at := now }],
        users_seq := st.users_seq + 1 })

/-- Function `db.create_session` (db.py lines 264-283): INSERT of
`(quiz_id, host_id, join_code)` only; the `status` column is filled by the
table default `waiting` (db_setup.py line 97), `join_code` is `UNIQUE`. -/
def create_session (st : Store) (quiz_id host_id : Nat) (join_code : String) :
    Except DBError (Nat × Store) :=
  if st.sessions.any (fun s => s.join_code == join_code) then
    .error (.uniqueViolation ("quiz_sessions_join_code_key"))
  else
    .ok (st.sessions_seq,
      { st with
        sessions := st.sessions ++
          [{ id := st.sessions_seq, quiz_id := quiz_id, host_id := host_id,
             join_code := join_code, status := "waiting",
             started_at := none, finished_at := none }],
        sessions_seq := st.sessions_seq + 1 })

/-- The `CHECK (status IN (waiting, in_progress, finished))`
constraint of `quiz_sessions` (db_setup.py line 98). -/
def validStatus (s : String) : Bool :=
  s == "waiting" || s == "in_progress" || s == "finished"

/-- The SET clause of the UPDATE in `db.update_session_status` (db.py
lines 334-336): `status = %s, finished_at = CASE WHEN %s = finished THEN
now() ELSE finished_at END`. -/
def statusUpdate (v : String) (now : Nat) (s : SessionRow) : SessionRow :=
  { s with
    status := v
    finished_at := if v == "finished" then some now else s.finished_at }

/-- Function `db.update_session_status` (db.py lines 325-342):
`UPDATE quiz_sessions SET <statusUpdate> WHERE id = %s RETURNING id`.
If no row matches the `WHERE`, nothing is updated and the function returns
`False`; if a row matches, the per-row `CHECK` constraint on `status`
fires for an invalid value and the driver raises. -/
def update_session_status (st : Store) (now : Nat) (session_id : Nat)
    (status : String) : Except DBError (Store × Bool) :=
  if st.sessions.any (fun s => s.id == session_id) then
    if validStatus status then
      .ok ({ st with
        sessions := st.sessions.map (fun s =>
          if s.id == session_id then statusUpdate status now s else s) },
        true)
    else
      .error (.checkViolation ("quiz_sessions_status_check"))
  else
    .ok (st, false)

/-- Function `db.add_session_player` (db.py lines 347-363): INSERT into
`quiz_session_players`; the store enforces the FK on `session_id` and the
`UNIQUE (session_id, nickname)` constraint (db_setup.py line 112). -/
def add_session_player (st : Store) (now : Nat) (session_id : Nat)
    (nickname : String) (user_id : Option Nat) :
    Except DBError (Nat × Store) :=
  if !(st.sessions.any (fun s => s.id == session_id)) then
    .error (.foreignKeyViolation ("quiz_session_players_session_id_fkey"))
  else if st.players.any (fun p =>
      p.session_id == session_id && p.nickname == nickname) then
    .error (.uniqueViolation ("quiz_session_players_session_id_nickname_key"))
  else
    .ok (st.players_seq,
      { st with
        players := st.players ++
          [{ id := st.players_seq, session_id := session_id,
             user_id := user_id, nickname := nickname,
             joined_at := now, score := 0 }],
        players_seq := st.players_seq + 1 })

/-- The `ORDER BY joined_at ASC, id ASC` relation of
`db.list_session_players` (db.py line 379). -/
def playerOrder (p q : SessionPlayerRow) : Prop :=
  p.joined_at < q.joined_at ∨ (p.joined_at = q.joined_at ∧ p.id ≤ q.id)

instance : DecidableRel playerOrder := fun p q => by
  unfold playerOrder; infer_instance

instance : IsTotal SessionPlayerRow playerOrder where
  total p q := by
    unfold playerOrder
    rcases Nat.lt_trichotomy p.joined_at q.joined_at with h | h | h
    · exact Or.inl (Or.inl h)
    · rcases Nat.le_total p.id q.id with h2 | h2
      · exact Or.inl (Or.inr ⟨h, h2⟩)
      · exact Or.inr (Or.inr ⟨h.symm, h2⟩)
    · exact Or.inr (Or.inl h)

instance : IsTrans SessionPlayerRow playerOrder where
  trans p q r hpq hqr := by
    unfold playerOrder at *
    rcases hpq with h1 | ⟨e1, l1⟩
    · rcases hqr with h2 | ⟨e2, _⟩
      · exact Or.inl (Nat.lt_trans h1 h2)
      · exact Or.inl (e2 ▸ h1)
    · rcases hqr with h2 | ⟨e2, l2⟩
      · exact Or.inl (e1 ▸ h2)
      · exact Or.inr ⟨e1.trans e2, Nat.le_trans l1 l2⟩

/-- Function `db.list_session_players` (db.py lines 367-383):
`SELECT ... FROM quiz_session_players WHERE session_id = %s
ORDER BY joined_at ASC, id ASC`. -/
def list_session_players (st : Store) (session_id : Nat) :
    List SessionPlayerRow :=
  List.insertionSort playerOrder
    (st.players.filter (fun p => p.session_id == session_id))

/-- Function `db.increment_player_score` (db.py lines 406-422):
`UPDATE quiz_session_players SET score = score + %s WHERE id = %s
RETURNING id`; returns whether a row matched. -/
def increment_player_score (st : Store) (player_id : Nat) (delta : Int) :
    Store × Bool :=
  if st.players.any (fun p => p.id == player_id) then
    ({ st with
       players := st.players.map (fun p =>
         if p.id == player_id then { p with score := p.score + delta } else p) },
     true)
  else (st, false)

/-- The current score of player `player_id`, read back from the store
(`None` when the player does not exist). -/
def playerScore (st : Store) (player_id : Nat) : Option Int :=
  (st.players.find? (fun p => p.id == player_id)).map (fun p => p.score)

/-- The points configured on question `question_id`; a `NULL` `points`
column counts as 0 (spec §4.3 step 4). -/
def questionPoints (st : Store) (question_id : Nat) : Int :=
  match st.questions.find? (fun q => q.id == question_id) with
  | some q => q.points.getD 0
  | none => 0

/-- Modelled from the spec: `db.create_session_answer_and_score` is called
by `app.submit_answer` (app.py line 343) but is defined nowhere in db.py;
this definition follows the algorithm of spec §4.3 steps 1-7 word for
word: look up the option; reject (`none`) when it is missing or its owning
question differs from the supplied `question_id`; otherwise correctness is
the `is_correct` flag of the option, points awarded are the configured points of the question if correct else 0 (`NULL` as 0), a `SessionAnswer` row
is inserted with `answered_at = now`, and, if `points_awarded > 0`, the
score of the player is atomically incremented by it, both in one unit. -/
def create_session_answer_and_score (st : Store) (now : Nat)
    (session_player_id question_id answer_option_id : Nat) :
    Option (SessionAnswerRow × Store) :=
  match st.answer_options.find? (fun o => o.id == answer_option_id) with
  | none => none
  | some opt =>
    if opt.question_id == question_id then
      let corr := opt.is_correct
      let pts : Int := if corr then questionPoints st question_id else 0
      let row : SessionAnswerRow :=
        { id := st.answers_seq, session_player_id := session_player_id,
          answer_option_id := answer_option_id, answered_at := some now,
          is_correct := some corr, points_awarded := some pts,
          question_id := question_id }
      let st1 := { st with
                   answers := st.answers ++ [row]
                   answers_seq := st.answers_seq + 1 }
      let st2 := if 0 < pts then
                   (increment_player_score st1 session_player_id pts).1
                 else st1
      some (row, st2)
    else none

/-! ## app.py: the HTTP handlers the claims mention -/

/-- The function names bound in the module `db` (every `def` of db.py, in
source order).  Python resolves `db.name` against this table at call time. -/
def dbModuleNames : List String :=
  ["list_users", "create_user", "get_user", "delete_user",
   "list_quizzes", "create_quiz", "list_questions_by_quiz",
   "create_question", "get_question", "delete_question",
   "create_session", "get_session_by_join_code", "get_session",
   "update_session_status", "add_session_player", "list_session_players",
   "get_session_player", "increment_player_score"]

/-- The body of `app.submit_answer` *after* the delegated call returns
(app.py lines 349-351): a falsy result becomes
`HTTPException(400, "Invalid answer option for this question.")`, a
truthy result is returned with status 201. -/
def submitAnswerDelegated (st : Store) (now : Nat) (a : SessionAnswerCreate) :
    HTTPResponse × Store :=
  match create_session_answer_and_score st now
      a.session_player_id a.question_id a.answer_option_id with
  | none => (.clientError 400 "Invalid answer option for this question.", st)
  | some (row, st2) => (.createdAnswer row, st2)

/-- Handler `app.submit_answer` (app.py lines 337-353) as written: the handler
resolves the attribute `db.create_session_answer_and_score` at call time;
when the name is not bound in the module the lookup raises
`AttributeError` before any store operation runs, and FastAPI turns the
uncaught exception into a 500 response. -/
def api_submit_answer (st : Store) (now : Nat) (a : SessionAnswerCreate) :
    HTTPResponse × Store :=
  if dbModuleNames.contains ("create_session_answer_and_score") then
    submitAnswerDelegated st now a
  else
    (.serverError
      ("AttributeError: module db has no attribute create_session_answer_and_score"),
     st)

/-- Handler `app.add_session_player` (app.py lines 302-320): any exception from
`db.add_session_player` is mapped to `HTTPException(status_code=409)`
with the stringified store message. -/
def api_add_session_player (st : Store) (now : Nat) (p : SessionPlayerCreate) :
    HTTPResponse × Store :=
  match add_session_player st now p.session_id p.nickname p.user_id with
  | .ok (pid, st2) => (.createdId pid, st2)
  | .error (.uniqueViolation m) => (.clientError 409 m, st)
  | .error (.checkViolation m) => (.clientError 409 m, st)
  | .error (.foreignKeyViolation m) => (.clientError 409 m, st)

/-! ## Concrete fixture data used by witnesses and counterexamples -/

/-- A question worth 500 points (mirrors the end-to-end scenario of
spec §8). -/
def demoQuestion : QuestionRow :=
  { id := 7, quiz_id := 1, question_type := "multiple_choice",
    time_limit_seconds := some 30, points := some 500, sort_order := some 1,
    question_text := "2+2?" }

/-- The correct option of `demoQuestion`. -/
def demoOptCorrect : AnswerOptionRow :=
  { id := 71, question_id := 7, option_text := "4", is_correct := true,
    sort_order := some 1 }

/-- An incorrect option of `demoQuestion`. -/
def demoOptWrong : AnswerOptionRow :=
  { id := 72, question_id := 7, option_text := "5", is_correct := false,
    sort_order := some 2 }

/-- A session in state waiting. -/
def demoSession : SessionRow :=
  { id := 1, quiz_id := 1, host_id := 1, join_code := "AB12",
    status := "waiting", started_at := none, finished_at := none }

/-- A second session, for the cross-session nickname scenario. -/
def demoSession2 : SessionRow :=
  { id := 2, quiz_id := 1, host_id := 1, join_code := "CD34",
    status := "waiting", started_at := none, finished_at := none }

/-- Player alice in session 1. -/
def demoPlayer : SessionPlayerRow :=
  { id := 3, session_id := 1, user_id := none, nickname := "alice",
    joined_at := 10, score := 0 }

/-- Player bob in session 1, who joined at the same timestamp as alice. -/
def demoPlayer2 : SessionPlayerRow :=
  { id := 5, session_id := 1, user_id := none, nickname := "bob",
    joined_at := 10, score := 0 }

/-- A finished session carrying a `finished_at` timestamp. -/
def demoSessionFin : SessionRow :=
  { id := 4, quiz_id := 1, host_id := 1, join_code := "EF56",
    status := "finished", started_at := some 40, finished_at := some 50 }

/-- A small populated store: one question with two options, three
sessions (one already finished), two players in session 1. -/
def demoStore : Store :=
  { users := [], questions := [demoQuestion],
    answer_options := [demoOptCorrect, demoOptWrong],
    sessions := [demoSession, demoSession2, demoSessionFin],
    players := [demoPlayer, demoPlayer2], answers := [],
    users_seq := 1, sessions_seq := 5, players_seq := 6, answers_seq := 1 }

/-- Pydantic payload for a user creation. -/
def demoUser : UserCreate :=
  { username := "alice", email := "alice@example.com", role := "player",
    password := "hunter2" }

/-! ## Helper lemmas -/

/-- The score UPDATE of `increment_player_score` commutes with looking up
the first row carrying the targeted id (the update preserves ids). -/
theorem find?_map_score (l : List SessionPlayerRow) (pid : Nat) (d : Int) :
    (l.map (fun p =>
        if p.id == pid then { p with score := p.score + d } else p)).find?
        (fun p => p.id == pid)
      = (l.find? (fun p => p.id == pid)).map
          (fun p => { p with score := p.score + d }) := by
  induction l with
  | nil => rfl
  | cons a l ih =>
    simp only [List.map_cons]
    by_cases h : (a.id == pid) = true
    · rw [if_pos h,
          List.find?_cons_of_pos (p := fun q : SessionPlayerRow => q.id == pid)
            (a := { a with score := a.score + d }) _ h,
          List.find?_cons_of_pos (p := fun q : SessionPlayerRow => q.id == pid) _ h]
      rfl
    · rw [if_neg h,
          List.find?_cons_of_neg (p := fun q : SessionPlayerRow => q.id == pid) _ h,
          List.find?_cons_of_neg (p := fun q : SessionPlayerRow => q.id == pid) _ h]
      exact ih

/-- Reading back the score of player `pid` after `increment_player_score`
on `pid`: the old score plus the delta (still `none` for a missing
player). -/
theorem playerScore_increment (st : Store) (pid : Nat) (d : Int) :
    playerScore (increment_player_score st pid d).1 pid
      = (playerScore st pid).map (fun v => v + d) := by
  by_cases h : st.players.any (fun p => p.id == pid) = true
  · unfold increment_player_score playerScore
    rw [if_pos h]
    dsimp only
    rw [find?_map_score]
    cases st.players.find? (fun p => p.id == pid) <;> rfl
  · unfold increment_player_score playerScore
    rw [if_neg h]
    have hn : st.players.find? (fun p => p.id == pid) = none := by
      rw [List.find?_eq_none]
      intro x hx hpx
      exact h (List.any_eq_true.mpr ⟨x, hx, hpx⟩)
    dsimp only
    rw [hn]
    rfl

/-- Function `increment_player_score` touches only the `players` table. -/
theorem increment_answers_unchanged (st : Store) (pid : Nat) (d : Int) :
    (increment_player_score st pid d).1.answers = st.answers := by
  unfold increment_player_score
  split <;> rfl

/-! ## Claim C10 -/

/-- C10: for every accepted user-creation input, `create_user` persists
the supplied plaintext password unchanged into the `password_hash` column
(db.py line 96 assigns `password_hash = user.password`; no hashing or
other transformation is applied). -/
theorem create_user_stores_plaintext_password
    (st : Store) (now : Nat) (u : UserCreate)
    (hu : st.users.any (fun x => x.username == u.username) = false)
    (he : st.users.any (fun x => x.email == u.email) = false) :
    ∃ uid st2, create_user st now u = .ok (uid, st2) ∧
      ∃ row : UserRow, st2.users = st.users ++ [row] ∧
        row.password_hash = u.password := by
  refine ⟨st.users_seq,
    { st with
      users := st.users ++
        [{ id := st.users_seq, username := u.username, email := u.email,
           password_hash := u.password, role := u.role, created_at := now }],
      users_seq := st.users_seq + 1 }, ?_, ?_⟩
  · simp [create_user, hu, he]
  · exact ⟨_, rfl, rfl⟩

/-- Witness for C10: creating alice in the empty store really stores the
password hunter2 verbatim. -/
theorem create_user_plaintext_witness :
    (Store.empty.users.any (fun x => x.username == demoUser.username)
        = false) ∧
    (Store.empty.users.any (fun x => x.email == demoUser.email) = false) ∧
    (∃ uid st2, create_user Store.empty 0 demoUser = .ok (uid, st2) ∧
      ∃ row : UserRow, st2.users = Store.empty.users ++ [row] ∧
        row.password_hash = demoUser.password) :=
  ⟨by decide, by decide,
   create_user_stores_plaintext_password Store.empty 0 demoUser
     (by decide) (by decide)⟩

/-! ## Claim C7 -/

/-- C7: every session produced by `create_session` has status waiting.
The function signature mirrors `SessionCreate` (schemas.py lines 102-106):
`status` is not an accepted input field, and the INSERT (db.py lines
274-281) names only `quiz_id, host_id, join_code`, so the column default
of db_setup.py line 97 applies — no input can yield a different initial
status. -/
theorem create_session_status_waiting
    (st : Store) (quiz_id host_id : Nat) (join_code : String)
    (h : st.sessions.any (fun s => s.join_code == join_code) = false) :
    ∃ sid st2, create_session st quiz_id host_id join_code = .ok (sid, st2) ∧
      ∃ srow : SessionRow, st2.sessions = st.sessions ++ [srow] ∧
        srow.status = "waiting" ∧ srow.id = sid ∧ srow.quiz_id = quiz_id ∧
        srow.host_id = host_id ∧ srow.join_code = join_code ∧
        srow.finished_at = none := by
  refine ⟨st.sessions_seq,
    { st with
      sessions := st.sessions ++
        [{ id := st.sessions_seq, quiz_id := quiz_id, host_id := host_id,
           join_code := join_code, status := "waiting",
           started_at := none, finished_at := none }],
      sessions_seq := st.sessions_seq + 1 }, ?_, ?_⟩
  · simp [create_session, h]
  · exact ⟨_, rfl, rfl, rfl, rfl, rfl, rfl, rfl⟩

/-- Witness for C7: the spec §8 scenario `create session (quiz=1, host=1,
join_code=AB12)` on the empty store yields a waiting session. -/
theorem create_session_waiting_witness :
    (Store.empty.sessions.any (fun s => s.join_code == "AB12") = false) ∧
    (∃ sid st2, create_session Store.empty 1 1 "AB12" = .ok (sid, st2) ∧
      ∃ srow : SessionRow, st2.sessions = Store.empty.sessions ++ [srow] ∧
        srow.status = "waiting" ∧ srow.id = sid ∧ srow.quiz_id = 1 ∧
        srow.host_id = 1 ∧ srow.join_code = "AB12" ∧
        srow.finished_at = none) :=
  ⟨by decide, create_session_status_waiting Store.empty 1 1 "AB12" (by decide)⟩

/-! ## Claim C3 -/

/-- C3: `POST /session-answers` always fails with an internal fault and
never returns a success record or changes any state: app.py line 343
delegates to `db.create_session_answer_and_score`, a name bound nowhere
in db.py (`dbModuleNames` lists every def of that module), so attribute
resolution raises before any store operation runs and the response is a
500. -/
theorem submit_answer_always_internal_fault
    (st : Store) (now : Nat) (a : SessionAnswerCreate) :
    api_submit_answer st now a =
      (HTTPResponse.serverError
        ("AttributeError: module db has no attribute create_session_answer_and_score"),
       st) ∧
    (api_submit_answer st now a).1.statusCode = 500 ∧
    (api_submit_answer st now a).2 = st := by
  exact ⟨rfl, rfl, rfl⟩

/-! ## Claim C5 -/

/-- The keyed status UPDATE commutes with looking up the first session
carrying the targeted id (the SET clause preserves ids). -/
theorem find?_map_statusUpdate (l : List SessionRow) (sid now : Nat)
    (v : String) :
    (l.map (fun s => if s.id == sid then statusUpdate v now s else s)).find?
        (fun s => s.id == sid)
      = (l.find? (fun s => s.id == sid)).map (statusUpdate v now) := by
  induction l with
  | nil => rfl
  | cons a l ih =>
    simp only [List.map_cons]
    by_cases h : (a.id == sid) = true
    · rw [if_pos h,
          List.find?_cons_of_pos (p := fun q : SessionRow => q.id == sid)
            (a := statusUpdate v now a) _ h,
          List.find?_cons_of_pos (p := fun q : SessionRow => q.id == sid) _ h]
      rfl
    · rw [if_neg h,
          List.find?_cons_of_neg (p := fun q : SessionRow => q.id == sid) _ h,
          List.find?_cons_of_neg (p := fun q : SessionRow => q.id == sid) _ h]
      exact ih

/-- C5: for every existing session and every valid target status,
`update_session_status` reports success and sets the status of that
session to the target; `finished_at` is stamped with the current time if
and only if the target status is finished, and for any other target it is
left exactly as it was — never cleared, even when moving out of finished
(the CASE expression of db.py line 336 keeps the old column value). -/
theorem update_status_sets_finished_at_iff_finished
    (st : Store) (now sid : Nat) (v : String) (s : SessionRow)
    (hs : st.sessions.find? (fun x => x.id == sid) = some s)
    (hv : validStatus v = true) :
    ∃ st2, update_session_status st now sid v = .ok (st2, true) ∧
      st2.sessions.find? (fun x => x.id == sid) =
        some { s with
               status := v
               finished_at := if v == "finished" then some now
                              else s.finished_at } := by
  have ha : st.sessions.any (fun x => x.id == sid) = true :=
    List.any_eq_true.mpr ⟨s, List.mem_of_find?_eq_some hs,
      List.find?_some (p := fun x : SessionRow => x.id == sid) hs⟩
  refine ⟨{ st with
            sessions := st.sessions.map (fun x =>
              if x.id == sid then statusUpdate v now x else x) }, ?_, ?_⟩
  · unfold update_session_status
    rw [if_pos ha, if_pos hv]
  · dsimp only
    rw [find?_map_statusUpdate, hs]
    rfl

/-- Witness for C5: moving the already-finished demo session back to
in_progress keeps its old `finished_at` timestamp (it is not cleared). -/
theorem update_status_finished_at_witness :
    (demoStore.sessions.find? (fun x => x.id == 4) = some demoSessionFin) ∧
    (validStatus "in_progress" = true) ∧
    (∃ st2, update_session_status demoStore 99 4 "in_progress"
        = .ok (st2, true) ∧
      st2.sessions.find? (fun x => x.id == 4) =
        some { demoSessionFin with
               status := "in_progress"
               finished_at := if "in_progress" == "finished" then some 99
                              else demoSessionFin.finished_at }) :=
  ⟨by decide, by decide,
   update_status_sets_finished_at_iff_finished demoStore 99 4 "in_progress"
     demoSessionFin (by decide) (by decide)⟩

/-! ## Claim C6 -/

/-- Counterexample to C6 as stated: the claim requires every call with a
status outside the declared set to fail with an invalid-argument error,
but for a `sessionId` that does not exist the UPDATE matches no row, the
per-row CHECK constraint never fires, and `update_session_status` returns
the not-found result false instead of raising: here session 1 does not
exist in the empty store and the status paused is invalid, yet the call
returns ok-false and no error. -/
theorem invalid_status_missing_session_counterexample :
    update_session_status Store.empty 0 1 "paused"
        = .ok (Store.empty, false) ∧
    validStatus "paused" = false ∧
    (Store.empty.sessions.any (fun s => s.id == 1) = false) ∧
    ∀ e : DBError, update_session_status Store.empty 0 1 "paused"
        ≠ .error e := by
  refine ⟨rfl, by decide, by decide, ?_⟩
  intro e h
  have h1 : update_session_status Store.empty 0 1 "paused"
      = .ok (Store.empty, false) := rfl
  rw [h1] at h
  exact Except.noConfusion h

/-- C6 (amended): when the session exists, an invalid newStatus fails with
the CHECK-violation (invalid-argument) error; when the session does not
exist, the call returns the not-found result false whatever the status;
and an error outcome is never equal to an ok outcome, so the two failure
modes are distinct. -/
theorem update_status_error_taxonomy :
    (∀ (st : Store) (now sid : Nat) (v : String),
        st.sessions.any (fun s => s.id == sid) = true →
        validStatus v = false →
        update_session_status st now sid v
          = .error (.checkViolation ("quiz_sessions_status_check"))) ∧
    (∀ (st : Store) (now sid : Nat) (v : String),
        st.sessions.any (fun s => s.id == sid) = false →
        update_session_status st now sid v = .ok (st, false)) ∧
    (∀ (st : Store) (now sid : Nat) (v : String) (e : DBError)
        (st2 : Store) (b : Bool),
        update_session_status st now sid v = .error e →
        update_session_status st now sid v ≠ .ok (st2, b)) := by
  refine ⟨?_, ?_, ?_⟩
  · intro st now sid v ha hv
    unfold update_session_status
    rw [if_pos ha, if_neg (by rw [hv]; exact Bool.false_ne_true)]
  · intro st now sid v ha
    unfold update_session_status
    rw [if_neg (by rw [ha]; exact Bool.false_ne_true)]
  · intro st now sid v e st2 b he hok
    rw [he] at hok
    exact Except.noConfusion hok

/-- Witness for C6 (amended): session 1 exists in the demo store, so the
invalid status paused raises the CHECK violation there; session 77 exists
nowhere, so the same call on the empty store returns ok-false. -/
theorem update_status_error_taxonomy_witness :
    (demoStore.sessions.any (fun s => s.id == 1) = true ∧
     validStatus "paused" = false ∧
     update_session_status demoStore 0 1 "paused"
       = .error (.checkViolation ("quiz_sessions_status_check"))) ∧
    (Store.empty.sessions.any (fun s => s.id == 77) = false ∧
     update_session_status Store.empty 0 77 "waiting"
       = .ok (Store.empty, false)) :=
  ⟨⟨by decide, by decide,
    update_status_error_taxonomy.1 demoStore 0 1 "paused"
      (by decide) (by decide)⟩,
   ⟨by decide,
    update_status_error_taxonomy.2.1 Store.empty 0 77 "waiting" (by decide)⟩⟩

/-! ## Claim C1 -/

/-- A question configured with negative points (the `points` column is a
plain nullable `INT`; no constraint forbids negative values). -/
def negQuestion : QuestionRow :=
  { id := 8, quiz_id := 1, question_type := "multiple_choice",
    time_limit_seconds := none, points := some (-5), sort_order := none,
    question_text := "neg" }

/-- The correct option of `negQuestion`. -/
def negOption : AnswerOptionRow :=
  { id := 81, question_id := 8, option_text := "yes", is_correct := true,
    sort_order := none }

/-- A player enrolled with score 0. -/
def negPlayer : SessionPlayerRow :=
  { id := 3, session_id := 1, user_id := none, nickname := "carol",
    joined_at := 0, score := 0 }

/-- A store whose only question is worth -5 points. -/
def negStore : Store :=
  { users := [], questions := [negQuestion], answer_options := [negOption],
    sessions := [], players := [negPlayer], answers := [],
    users_seq := 1, sessions_seq := 1, players_seq := 4, answers_seq := 1 }

/-- The answer row produced by submitting the correct option of
`negQuestion`. -/
def negRow : SessionAnswerRow :=
  { id := 1, session_player_id := 3, answer_option_id := 81,
    answered_at := some 0, is_correct := some true,
    points_awarded := some (-5), question_id := 8 }

/-- The store after that submission: the row is inserted, the score is
untouched. -/
def negStore2 : Store :=
  { negStore with answers := [negRow], answers_seq := 2 }

/-- Counterexample to C1 as stated: the claim requires the score of the
player to be incremented by exactly the points awarded whenever the
option is correct, but step 6 of spec §4.3 increments only when
`points_awarded > 0`; with a question configured at -5 points the correct
submission records `points_awarded = -5` while the score stays 0 instead
of becoming -5. -/
theorem scoring_negative_points_counterexample :
    create_session_answer_and_score negStore 0 3 8 81
        = some (negRow, negStore2) ∧
    negRow.is_correct = some true ∧
    negRow.points_awarded = some (questionPoints negStore 8) ∧
    questionPoints negStore 8 = -5 ∧
    playerScore negStore2 3 = playerScore negStore 3 ∧
    playerScore negStore2 3
        ≠ (playerScore negStore 3).map (fun x => x + questionPoints negStore 8) := by
  refine ⟨rfl, rfl, rfl, rfl, rfl, ?_⟩
  decide

/-- Adding zero pointwise to an optional score is the identity. -/
theorem map_add_zero (o : Option Int) : o.map (fun x => x + 0) = o := by
  cases o <;> simp

/-- C1 (amended): for every answer submission whose option exists and
belongs to the supplied question, and whose question has a nonnegative
configured points value (negative configured points fall outside step 6
of spec §4.3, which increments only when `points_awarded > 0`): a correct
option yields a record with `is_correct = true` and `points_awarded`
equal to the configured points of the question (0 when NULL) and the
score of the player grows by exactly that amount; an incorrect option
yields `points_awarded = 0` and leaves the score unchanged. -/
theorem scoring_awards_points_iff_correct
    (st : Store) (now spid qid oid : Nat) (opt : AnswerOptionRow)
    (hfind : st.answer_options.find? (fun o => o.id == oid) = some opt)
    (hq : opt.question_id = qid)
    (hpts : 0 ≤ questionPoints st qid) :
    ∃ row st2,
      create_session_answer_and_score st now spid qid oid = some (row, st2) ∧
      (opt.is_correct = true →
        row.is_correct = some true ∧
        row.points_awarded = some (questionPoints st qid) ∧
        playerScore st2 spid
          = (playerScore st spid).map (fun x => x + questionPoints st qid)) ∧
      (opt.is_correct = false →
        row.is_correct = some false ∧
        row.points_awarded = some 0 ∧
        playerScore st2 spid = playerScore st spid) := by
  unfold create_session_answer_and_score
  rw [hfind]
  have hbq : (opt.question_id == qid) = true := beq_iff_eq.mpr hq
  dsimp only
  rw [if_pos hbq]
  refine ⟨_, _, rfl, ?_, ?_⟩
  · intro hc
    rw [hc]
    refine ⟨rfl, ?_, ?_⟩
    · dsimp only
      rw [if_pos rfl]
    · dsimp only
      rw [if_pos rfl]
      by_cases h0 : (0 : Int) < questionPoints st qid
      · rw [if_pos h0]
        exact playerScore_increment _ spid _
      · rw [if_neg h0]
        have hz : questionPoints st qid = 0 :=
          le_antisymm (not_lt.mp h0) hpts
        rw [hz]
        exact (map_add_zero (playerScore st spid)).symm
  · intro hc
    rw [hc]
    refine ⟨rfl, ?_, ?_⟩
    · dsimp only
      rw [if_neg (c := (false = true)) Bool.false_ne_true]
    · dsimp only
      rw [if_neg (c := (false = true)) Bool.false_ne_true,
          if_neg (c := ((0 : Int) < 0)) (lt_irrefl 0)]
      rfl

/-- Witness for C1 (amended): submitting the correct 500-point option of
question 7 in the demo store. -/
theorem scoring_awards_points_witness :
    (demoStore.answer_options.find? (fun o => o.id == 71)
        = some demoOptCorrect) ∧
    demoOptCorrect.question_id = 7 ∧
    (0 ≤ questionPoints demoStore 7) ∧
    (∃ row st2,
      create_session_answer_and_score demoStore 20 3 7 71
          = some (row, st2) ∧
      (demoOptCorrect.is_correct = true →
        row.is_correct = some true ∧
        row.points_awarded = some (questionPoints demoStore 7) ∧
        playerScore st2 3
          = (playerScore demoStore 3).map
              (fun x => x + questionPoints demoStore 7)) ∧
      (demoOptCorrect.is_correct = false →
        row.is_correct = some false ∧
        row.points_awarded = some 0 ∧
        playerScore st2 3 = playerScore demoStore 3)) :=
  ⟨by decide, by decide, by decide,
   scoring_awards_points_iff_correct demoStore 20 3 7 71 demoOptCorrect
     (by decide) (by decide) (by decide)⟩

/-! ## Claim C2 -/

/-- C2 (modelled from the spec for the delegated call, whose caller
app.py lines 349-351 is in the source): a missing option, or an option
whose owning question differs from the supplied questionId, is rejected
with the 400 client error `Invalid answer option for this question.` and
the store untouched — a client input error, not a 404 not-found and not
a 500 server fault; an option that does belong to the supplied question
succeeds with a 201 created record. -/
theorem submit_answer_validation :
    (∀ (st : Store) (now : Nat) (a : SessionAnswerCreate),
        st.answer_options.find? (fun o => o.id == a.answer_option_id)
            = none →
        submitAnswerDelegated st now a =
          (.clientError 400 ("Invalid answer option for this question."),
           st)) ∧
    (∀ (st : Store) (now : Nat) (a : SessionAnswerCreate)
        (opt : AnswerOptionRow),
        st.answer_options.find? (fun o => o.id == a.answer_option_id)
            = some opt →
        opt.question_id ≠ a.question_id →
        submitAnswerDelegated st now a =
          (.clientError 400 ("Invalid answer option for this question."),
           st)) ∧
    (∀ (st : Store) (now : Nat) (a : SessionAnswerCreate)
        (opt : AnswerOptionRow),
        st.answer_options.find? (fun o => o.id == a.answer_option_id)
            = some opt →
        opt.question_id = a.question_id →
        ∃ row st2,
          submitAnswerDelegated st now a = (.createdAnswer row, st2) ∧
          (HTTPResponse.createdAnswer row).statusCode = 201) ∧
    ((HTTPResponse.clientError 400
        ("Invalid answer option for this question.")).statusCode = 400 ∧
     (400 : Nat) ≠ 404 ∧ (400 : Nat) ≠ 500) := by
  refine ⟨?_, ?_, ?_, rfl, by decide, by decide⟩
  · intro st now a h
    unfold submitAnswerDelegated create_session_answer_and_score
    rw [h]
  · intro st now a opt h hne
    unfold submitAnswerDelegated create_session_answer_and_score
    rw [h]
    dsimp only
    rw [if_neg (fun hh => hne (beq_iff_eq.mp hh))]
  · intro st now a opt h he
    unfold submitAnswerDelegated create_session_answer_and_score
    rw [h]
    dsimp only
    rw [if_pos (beq_iff_eq.mpr he)]
    exact ⟨_, _, rfl, rfl⟩

/-- Witness for C2: option 71 belongs to question 7; submitted against
question 999 it is rejected with 400, submitted against question 7 it is
created with 201. -/
theorem submit_answer_validation_witness :
    (demoStore.answer_options.find? (fun o => o.id == 71)
        = some demoOptCorrect ∧
     demoOptCorrect.question_id ≠ 999 ∧
     submitAnswerDelegated demoStore 20 ⟨3, 999, 71⟩ =
       (.clientError 400 ("Invalid answer option for this question."),
        demoStore)) ∧
    (demoOptCorrect.question_id = 7 ∧
     ∃ row st2,
       submitAnswerDelegated demoStore 20 ⟨3, 7, 71⟩
           = (.createdAnswer row, st2) ∧
       (HTTPResponse.createdAnswer row).statusCode = 201) :=
  ⟨⟨by decide, by decide,
    submit_answer_validation.2.1 demoStore 20 ⟨3, 999, 71⟩ demoOptCorrect
      (by decide) (by decide)⟩,
   ⟨by decide,
    submit_answer_validation.2.2.1 demoStore 20 ⟨3, 7, 71⟩ demoOptCorrect
      (by decide) (by decide)⟩⟩

/-! ## Claim C4 -/

/-- On a successful delegated submission, the returned state carries both
effects: the inserted row and the score effect prescribed by step 6 of
spec §4.3 (increment by the awarded points when they are positive,
no change otherwise). -/
theorem create_session_answer_spec
    (st : Store) (now spid qid oid : Nat) (row : SessionAnswerRow)
    (st2 : Store)
    (h : create_session_answer_and_score st now spid qid oid
        = some (row, st2)) :
    ∃ pts, row.points_awarded = some pts ∧
      st2.answers = st.answers ++ [row] ∧
      playerScore st2 spid
        = (playerScore st spid).map
            (fun x => x + (if 0 < pts then pts else 0)) := by
  unfold create_session_answer_and_score at h
  cases hf : st.answer_options.find? (fun o => o.id == oid) with
  | none =>
    rw [hf] at h
    exact absurd h (by simp)
  | some opt =>
    rw [hf] at h
    dsimp only at h
    by_cases hbq : (opt.question_id == qid) = true
    · rw [if_pos hbq] at h
      simp only [Option.some.injEq, Prod.mk.injEq] at h
      obtain ⟨hrow, hst2⟩ := h
      subst hrow
      subst hst2
      refine ⟨_, rfl, ?_, ?_⟩
      · by_cases h0 : (0 : Int) <
            (if opt.is_correct = true then questionPoints st qid else 0)
        · rw [if_pos h0, increment_answers_unchanged]
        · rw [if_neg h0]
      · by_cases h0 : (0 : Int) <
            (if opt.is_correct = true then questionPoints st qid else 0)
        · rw [if_pos h0, if_pos h0]
          exact playerScore_increment _ spid _
        · rw [if_neg h0, if_neg h0]
          exact (map_add_zero (playerScore st spid)).symm
    · rw [if_neg hbq] at h
      exact absurd h (by simp)

/-- C4 (modelled from the spec, §4.3 step 7: steps 5-6 are one unit):
every submission either is rejected with the store completely untouched,
or returns a created record whose row insertion and whose score effect
are both present in the single returned state — no state containing only
one of the two effects is ever produced. -/
theorem answer_and_score_atomic (st : Store) (now : Nat)
    (a : SessionAnswerCreate) :
    ((submitAnswerDelegated st now a).2 = st ∧
     (submitAnswerDelegated st now a).1.statusCode = 400) ∨
    (∃ row pts,
      row.points_awarded = some pts ∧
      (submitAnswerDelegated st now a).1 = .createdAnswer row ∧
      (submitAnswerDelegated st now a).2.answers = st.answers ++ [row] ∧
      playerScore (submitAnswerDelegated st now a).2 a.session_player_id
        = (playerScore st a.session_player_id).map
            (fun x => x + (if 0 < pts then pts else 0))) := by
  cases hr : create_session_answer_and_score st now
      a.session_player_id a.question_id a.answer_option_id with
  | none =>
    have hd : submitAnswerDelegated st now a =
        (.clientError 400 ("Invalid answer option for this question."),
         st) := by
      unfold submitAnswerDelegated
      rw [hr]
    left
    rw [hd]
    exact ⟨rfl, rfl⟩
  | some r =>
    obtain ⟨row, st2⟩ := r
    have hd : submitAnswerDelegated st now a = (.createdAnswer row, st2) := by
      unfold submitAnswerDelegated
      rw [hr]
    obtain ⟨pts, h1, h2, h3⟩ :=
      create_session_answer_spec st now a.session_player_id a.question_id
        a.answer_option_id row st2 hr
    right
    refine ⟨row, pts, h1, ?_, ?_, ?_⟩
    · rw [hd]
    · rw [hd]
      exact h2
    · rw [hd]
      exact h3

/-! ## Claim C8 -/

/-- Two player rows compatible with the `UNIQUE (session_id, nickname)`
constraint: they differ in session or in nickname. -/
def nickDistinct (q r : SessionPlayerRow) : Prop :=
  q.session_id ≠ r.session_id ∨ q.nickname ≠ r.nickname

/-- C8: adding a player whose nickname is already taken in the same
session fails with the 409 Conflict mapping of app.py line 317 and
leaves the player set unchanged; with no such duplicate (in particular,
the same nickname in a different session) the insert succeeds; and every
outcome of the operation preserves (session_id, nickname) uniqueness. -/
theorem nickname_unique_per_session :
    (∀ (st : Store) (now : Nat) (p : SessionPlayerCreate),
        st.sessions.any (fun s => s.id == p.session_id) = true →
        st.players.any (fun q =>
            q.session_id == p.session_id && q.nickname == p.nickname)
          = true →
        api_add_session_player st now p =
          (.clientError 409
             ("quiz_session_players_session_id_nickname_key"), st)) ∧
    (∀ (st : Store) (now : Nat) (p : SessionPlayerCreate),
        st.sessions.any (fun s => s.id == p.session_id) = true →
        st.players.any (fun q =>
            q.session_id == p.session_id && q.nickname == p.nickname)
          = false →
        ∃ pid st2, api_add_session_player st now p = (.createdId pid, st2) ∧
          st2.players = st.players ++
            [{ id := pid, session_id := p.session_id, user_id := p.user_id,
               nickname := p.nickname, joined_at := now, score := 0 }]) ∧
    (∀ (st : Store) (now : Nat) (p : SessionPlayerCreate)
        (resp : HTTPResponse) (st2 : Store),
        api_add_session_player st now p = (resp, st2) →
        st.players.Pairwise nickDistinct →
        st2.players.Pairwise nickDistinct) := by
  refine ⟨?_, ?_, ?_⟩
  · intro st now p hs hd
    unfold api_add_session_player add_session_player
    rw [hs, hd]
    rfl
  · intro st now p hs hd
    unfold api_add_session_player add_session_player
    rw [hs, hd]
    exact ⟨_, _, rfl, rfl⟩
  · intro st now p resp st2 h hpw
    by_cases hs : st.sessions.any (fun s => s.id == p.session_id) = true
    · by_cases hd : st.players.any (fun q =>
          q.session_id == p.session_id && q.nickname == p.nickname) = true
      · unfold api_add_session_player add_session_player at h
        rw [hs, hd] at h
        have hst : st2 = st := congrArg Prod.snd h.symm
        rw [hst]
        exact hpw
      · unfold api_add_session_player add_session_player at h
        rw [hs, eq_false_of_ne_true hd] at h
        have hst : st2 = { st with
            players := st.players ++
              [{ id := st.players_seq, session_id := p.session_id,
                 user_id := p.user_id, nickname := p.nickname,
                 joined_at := now, score := 0 }],
            players_seq := st.players_seq + 1 } :=
          congrArg Prod.snd h.symm
        rw [hst]
        rw [List.pairwise_append]
        refine ⟨hpw, List.pairwise_singleton _ _, ?_⟩
        intro q hq r hr
        rw [List.mem_singleton] at hr
        subst hr
        have hnq := List.any_eq_false.mp (eq_false_of_ne_true hd) q hq
        rw [Bool.and_eq_true, beq_iff_eq, beq_iff_eq] at hnq
        rcases not_and_or.mp hnq with hne | hne
        · exact Or.inl hne
        · exact Or.inr hne
    · unfold api_add_session_player add_session_player at h
      rw [eq_false_of_ne_true hs] at h
      have hst : st2 = st := congrArg Prod.snd h.symm
      rw [hst]
      exact hpw

/-- Witness for C8: alice is already in session 1, so adding alice to
session 1 again is a 409 conflict leaving the store untouched, while
adding alice to session 2 succeeds. -/
theorem nickname_unique_witness :
    (demoStore.sessions.any (fun s => s.id == 1) = true ∧
     demoStore.players.any (fun q =>
         q.session_id == 1 && q.nickname == "alice") = true ∧
     api_add_session_player demoStore 30 ⟨1, "alice", none⟩ =
       (.clientError 409 ("quiz_session_players_session_id_nickname_key"),
        demoStore)) ∧
    (demoStore.sessions.any (fun s => s.id == 2) = true ∧
     demoStore.players.any (fun q =>
         q.session_id == 2 && q.nickname == "alice") = false ∧
     ∃ pid st2,
       api_add_session_player demoStore 30 ⟨2, "alice", none⟩
           = (.createdId pid, st2) ∧
       st2.players = demoStore.players ++
         [{ id := pid, session_id := 2, user_id := none,
            nickname := "alice", joined_at := 30, score := 0 }]) :=
  ⟨⟨by decide, by decide,
    nickname_unique_per_session.1 demoStore 30 ⟨1, "alice", none⟩
      (by decide) (by decide)⟩,
   ⟨by decide, by decide,
    nickname_unique_per_session.2.1 demoStore 30 ⟨2, "alice", none⟩
      (by decide) (by decide)⟩⟩

/-! ## Claim C9 -/

/-- Strict version of `playerOrder`: joined strictly earlier, or joined
at the same time with a strictly smaller id. -/
def playerOrderStrict (p q : SessionPlayerRow) : Prop :=
  p.joined_at < q.joined_at ∨ (p.joined_at = q.joined_at ∧ p.id < q.id)

/-- C9: `list_session_players` returns exactly the players of the session
(a permutation of the rows matching the WHERE clause), sorted by
(joined_at ascending, id ascending); and when the ids are pairwise
distinct — they are, being primary keys — consecutive elements are in
strictly increasing (joined_at, id) order, so the ordering is
deterministic even for players who joined within the same timestamp
granularity. -/
theorem list_players_sorted_deterministic (st : Store) (sid : Nat)
    (hids : (st.players.filter (fun p => p.session_id == sid)).Pairwise
        (fun p q => p.id ≠ q.id)) :
    (list_session_players st sid).Perm
        (st.players.filter (fun p => p.session_id == sid)) ∧
    List.Sorted playerOrder (list_session_players st sid) ∧
    (list_session_players st sid).Pairwise playerOrderStrict := by
  have hperm := List.perm_insertionSort playerOrder
      (st.players.filter (fun p => p.session_id == sid))
  have hsorted := List.sorted_insertionSort playerOrder
      (st.players.filter (fun p => p.session_id == sid))
  refine ⟨hperm, hsorted, ?_⟩
  have hne : (list_session_players st sid).Pairwise
      (fun p q : SessionPlayerRow => p.id ≠ q.id) :=
    (List.Perm.pairwise_iff (fun hxy => Ne.symm hxy) hperm).mpr hids
  have hcomb := List.Pairwise.and hsorted hne
  refine hcomb.imp ?_
  intro a b hab
  rcases hab with ⟨hlt | ⟨heq, hle⟩, hnab⟩
  · exact Or.inl hlt
  · exact Or.inr ⟨heq, lt_of_le_of_ne hle hnab⟩

/-- Witness for C9: alice and bob joined session 1 at the same timestamp;
their listing is still deterministically ordered. -/
theorem list_players_sorted_witness :
    ((demoStore.players.filter (fun p => p.session_id == 1)).Pairwise
        (fun p q => p.id ≠ q.id)) ∧
    ((list_session_players demoStore 1).Perm
        (demoStore.players.filter (fun p => p.session_id == 1)) ∧
     List.Sorted playerOrder (list_session_players demoStore 1) ∧
     (list_session_players demoStore 1).Pairwise playerOrderStrict) :=
  ⟨by decide, list_players_sorted_deterministic demoStore 1 (by decide)⟩
